import Mathlib

/-!
Verification development for the ChannelDashboard repository.

The Python source is shallowly embedded in Lean:
* pandas `DataFrame`s of video rows become `List VideoRow` with a fixed
  schema (every row carries every column of the `動画` sheet that the
  dashboard reads);
* Python strings become `List Char`; `str.lower`/`re.IGNORECASE` are
  modelled by `Char.toLower` (ASCII fragment);
* timestamps (`pd.Timestamp`/`datetime`) become `Int` seconds on a single
  time line, calendar dates become `Int` day numbers (one day = 86400 s),
  so `to_datetime(date)` is `86400 * day` and `timedelta(days=1)` is
  `+ 86400`; the Gregorian field accessors (`.month`, `.day`, `.hour`)
  are computed by the standard civil-from-days algorithm, exactly the
  arithmetic Python's `datetime` performs;
* Python `float` arithmetic is idealised as exact rational arithmetic
  (`ℚ`); `int(x)` is truncation toward zero; numpy's half-to-even
  rounding is `roundHalfEven`;
* pandas `nlargest`/`nsmallest` (documented `keep='first'`: ties keep
  the first occurrences) are modelled as a stable sort by the key
  followed by `take`; `sort_values` (default `kind='quicksort'`, which
  pandas does not document as stable) is also modelled by a stable
  `List.mergeSort` — tie order under `sort_values` is therefore a
  property of the model, not a guarantee of the program, and no theorem
  below draws a conclusion that depends on it.
-/

namespace ChannelDashboard

/-! ## Python string helpers -/

/-- Model of `str.strip()`: drop whitespace from both ends. -/
def pyStrip (s : List Char) : List Char :=
  ((s.dropWhile Char.isWhitespace).reverse.dropWhile Char.isWhitespace).reverse

/-- Lower-case the characters of a string; ASCII model of `str.lower()`
and of `re.IGNORECASE` case folding. -/
def lowerChars (s : List Char) : List Char :=
  s.map Char.toLower

/-- Decimal digits of a natural number, most significant first;
model of Python's `str(n)` / `"{}".format(n)` for `n ≥ 0`. -/
def natDigits (n : Nat) : List Char :=
  if h : n < 10 then [Nat.digitChar n]
  else natDigits (n / 10) ++ [Nat.digitChar (n % 10)]
decreasing_by exact Nat.div_lt_self (by omega) (by omega)

/-- Decimal rendering of an integer; model of `str(n)` for Python ints. -/
def intChars (n : Int) : List Char :=
  if n < 0 then '-' :: natDigits n.natAbs else natDigits n.natAbs

/-- Insert `','` after every three characters of a reversed digit list;
helper for the `"{:,}"` format spec. -/
def group3 : List Char → List Char
  | c1 :: c2 :: c3 :: c4 :: rest => c1 :: c2 :: c3 :: ',' :: group3 (c4 :: rest)
  | l => l

/-- Model of Python's `"{:,}".format(n)` for a natural number: decimal
digits with thousands separators. -/
def fmtComma (n : Nat) : List Char :=
  (group3 (natDigits n).reverse).reverse

/-- Model of `"{:,}".format(n)` for a Python int. -/
def fmtCommaI (n : Int) : List Char :=
  if n < 0 then '-' :: fmtComma n.natAbs else fmtComma n.natAbs

/-- Round a rational to the nearest integer, ties to even; model of the
IEEE-754 `roundTiesToEven` used by numpy/Python float formatting,
idealised over exact rationals. -/
def roundHalfEven (x : ℚ) : Int :=
  let f := ⌊x⌋
  let r := x - (f : ℚ)
  if r < 1 / 2 then f
  else if 1 / 2 < r then f + 1
  else if f % 2 = 0 then f else f + 1

/-- Model of Python's `int(x)` on a float: truncation toward zero. -/
def pyInt (x : ℚ) : Int :=
  if 0 ≤ x then ⌊x⌋ else ⌈x⌉

/-- Model of `"{:.0f}".format(x)` for `x ≥ 0`. -/
def fmtFixed0 (x : ℚ) : List Char :=
  natDigits (roundHalfEven x).toNat

/-- Model of `"{:.1f}".format(x)` for `x ≥ 0`. -/
def fmtFixed1 (x : ℚ) : List Char :=
  let n := (roundHalfEven (x * 10)).toNat
  natDigits (n / 10) ++ '.' :: [Nat.digitChar (n % 10)]

/-- Arithmetic mean of a list of naturals as a rational; model of
pandas `Series.mean()` over integer data. -/
def listMeanQ (l : List Nat) : ℚ :=
  ((l.map fun n => (n : ℚ)).sum) / (l.length : ℚ)

/-- Maximum of a list of naturals; model of `Series.max()` (callers pass
nonempty lists). -/
def listMaxN (l : List Nat) : Nat :=
  l.foldl max 0

/-! ## Data model

One row of the `動画` (videos) sheet as the dashboard reads it back:
`動画ID`, `動画タイトル`, `公開日時`, `再生回数`, `高評価数`,
`コメント数`.  The title cell may be missing (pandas `NaN`), hence
`Option`; `公開日時` is modelled as an `Int` timestamp (seconds), which
is order-isomorphic both to the parsed `datetime` and to the stored
ISO-8601 string that `sort_values("公開日時")` compares. -/

structure VideoRow where
  videoId : List Char
  title : Option (List Char)
  publishedAt : Int
  views : Nat
  likes : Nat
  comments : Nat
deriving DecidableEq

/-- Model of `f"{title}"`/`.astype(str)` applied to a title cell: a
missing value (pandas `NaN`) stringifies to `"nan"`. -/
def strOfTitle : Option (List Char) → List Char
  | none => ("nan").data
  | some t => t

/-! ## Filter engine (`dashboard.py`, `Dashboard._apply_filters`) -/

/-- The 期間 (period) filter choices of the dashboard; `custom` carries
the chosen start/end dates as day numbers. -/
inductive Period where
  | all | last7 | last30 | last90
  | custom (startDay endDay : Int)
deriving DecidableEq

/-- The 並び替え (sort) choices of the dashboard. -/
inductive SortKey where
  | pubDesc | pubAsc | viewsDesc | viewsAsc | likesDesc
deriving DecidableEq

/-- The dashboard's filter settings (`st.session_state.filter_settings`). -/
structure FilterSettings where
  period : Period
  search : List Char
  sortKey : SortKey

/-- Period predicate of `_apply_filters` (dashboard.py lines 396-428):
relative periods keep `publishedAt >= now - N days`; the custom period
keeps `start <= publishedAt < end + 1 day` where `start`/`end` are the
midnights of the chosen days. -/
def periodKeep (now : Int) : Period → VideoRow → Bool
  | .all, _ => true
  | .last7, r => decide (now - 7 * 86400 ≤ r.publishedAt)
  | .last30, r => decide (now - 30 * 86400 ≤ r.publishedAt)
  | .last90, r => decide (now - 90 * 86400 ≤ r.publishedAt)
  | .custom s e, r =>
      decide (86400 * s ≤ r.publishedAt) && decide (r.publishedAt < 86400 * (e + 1))

/-- Period filtering step of `_apply_filters`. -/
def periodStep (now : Int) (p : Period) (l : List VideoRow) : List VideoRow :=
  l.filter (periodKeep now p)

/-! ### Search step

`_apply_filters` runs
`filtered["動画タイトル"].astype(str).str.contains(search_term, case=False, na=False)`
after `search_term = search_term.strip()`.  `str.contains` treats the
search term as a regular expression (`regex=True` is the default) with
`re.IGNORECASE`.  The regex fragment modelled here is patterns built
from literal characters and the `.` wildcard; it agrees with
`re.search` on patterns that contain no regex metacharacter (and on the
`.` wildcard, used by the counterexample), so every theorem that
concludes literal-substring semantics carries the explicit hypothesis
that the search term contains no metacharacter at all. -/

/-- The metacharacters of Python regular expressions.  A pattern
containing none of these is matched by `re.search` as a literal
string. -/
def reMetachars : List Char :=
  ['.', '^', '$', '*', '+', '?', '\x7b', '\x7d', '[', ']', '(', ')', '|', '\\']

/-- A token of the modelled regex fragment: a literal character or the
`.` wildcard. -/
inductive RTok where
  | lit (c : Char)
  | dot
deriving DecidableEq

/-- Parse a pattern string of the modelled fragment.  Faithful to
`re.compile` only for patterns whose characters are all literals or
`.`; theorems about literal matching therefore assume the pattern
avoids `reMetachars` entirely. -/
def parsePat (p : List Char) : List RTok :=
  p.map fun c => if c = '.' then RTok.dot else RTok.lit c

/-- Does a token match one character? -/
def tokMatch : RTok → Char → Bool
  | .lit c, d => c == d
  | .dot, _ => true

/-- Does the pattern match a prefix of the string? -/
def matchesAt : List RTok → List Char → Bool
  | [], _ => true
  | _ :: _, [] => false
  | t :: ts, c :: cs => tokMatch t c && matchesAt ts cs

/-- Does the pattern match anywhere in the string?  Model of
`re.search` for the modelled fragment. -/
def reSearch (pat : List RTok) : List Char → Bool
  | [] => matchesAt pat []
  | c :: cs => matchesAt pat (c :: cs) || reSearch pat cs

/-- The per-row search predicate of `_apply_filters` line 437: stringify
the title (missing → `"nan"`), match the (already stripped) search term
case-insensitively as a regex. -/
def searchKeep (term : List Char) (r : VideoRow) : Bool :=
  reSearch (parsePat (lowerChars term)) (lowerChars (strOfTitle r.title))

/-- Search filtering step of `_apply_filters` (lines 432-437): an empty
or whitespace-only search term is a no-op, otherwise filter by the
stripped term. -/
def searchStep (search : List Char) (l : List VideoRow) : List VideoRow :=
  let term := pyStrip search
  if term = [] then l else l.filter (searchKeep term)

/-- Comparison used by each sort option of `_apply_filters`
(lines 440-451). -/
def sortLe : SortKey → VideoRow → VideoRow → Bool
  | .pubDesc, a, b => decide (b.publishedAt ≤ a.publishedAt)
  | .pubAsc, a, b => decide (a.publishedAt ≤ b.publishedAt)
  | .viewsDesc, a, b => decide (b.views ≤ a.views)
  | .viewsAsc, a, b => decide (a.views ≤ b.views)
  | .likesDesc, a, b => decide (b.likes ≤ a.likes)

/-- Sorting step of `_apply_filters`: sort by the selected key.
`DataFrame.sort_values` is modelled by a stable sort, but the source
uses the default `kind='quicksort'`, which pandas does not guarantee to
be stable — the relative order of records with equal keys in this
model is not a program guarantee (see the header notes). -/
def sortStep (k : SortKey) (l : List VideoRow) : List VideoRow :=
  l.mergeSort (sortLe k)

/-- Model of `Dashboard._apply_filters` (dashboard.py lines 380-453):
empty input is returned as is; otherwise the period filter, then the
search filter, then the sort are applied in order. -/
def applyFilters (now : Int) (st : FilterSettings) (l : List VideoRow) : List VideoRow :=
  if l.isEmpty then l
  else sortStep st.sortKey (searchStep st.search (periodStep now st.period l))

/-- Row builder for concrete examples: an untitled row with the given
publish time, views and likes. -/
def mkRow (ts : Int) (v lk : Nat) : VideoRow :=
  { videoId := [], title := none, publishedAt := ts, views := v, likes := lk, comments := 0 }

/-- Row builder for concrete examples: a titled row. -/
def mkRowT (t : List Char) (ts : Int) (v lk : Nat) : VideoRow :=
  { videoId := [], title := some t, publishedAt := ts, views := v, likes := lk, comments := 0 }

/-! ## Like-rate derivation (dashboard.py) -/

/-- Rounding to two decimal places, ties to even; model of
`Series.round(2)` (idealised over exact rationals). -/
def round2 (x : ℚ) : ℚ :=
  ((roundHalfEven (x * 100) : ℚ)) / 100

/-- The summary's 有効 rows: records with 再生回数 > 0
(dashboard.py line 131). -/
def summaryValidVideos (l : List VideoRow) : List VideoRow :=
  l.filter fun r => decide (0 < r.views)

/-- Model of the 平均高評価率 metric of `Dashboard._show_summary`
(dashboard.py lines 129-139): the mean of `likes/views*100` over the
records with positive views, or `none` (displayed `N/A`) when no such
record exists. -/
def summaryAvgLikeRate (l : List VideoRow) : Option ℚ :=
  let valid := summaryValidVideos l
  if valid.isEmpty then none
  else some (((valid.map fun r => ((r.likes : ℚ) / (r.views : ℚ)) * 100).sum) / (valid.length : ℚ))

/-- The 高評価率(%) cell formula of `Dashboard._show_video_performance`
before rounding (dashboard.py lines 350-353): `likes/views*100` when
views > 0, otherwise the literal number 0. -/
def tableLikeRateRaw (r : VideoRow) : ℚ :=
  if 0 < r.views then ((r.likes : ℚ) / (r.views : ℚ)) * 100 else 0

/-- The displayed 高評価率(%) cell: the raw value rounded to two
decimals (dashboard.py line 354). -/
def tableLikeRateCell (r : VideoRow) : ℚ :=
  round2 (tableLikeRateRaw r)

/-- Modelled from the spec (§4.1), the comparator for claim C1:
`likeRate(views, likes) → views>0 ? likes/views*100 : undefined`. -/
def specLikeRate (views likes : Nat) : Option ℚ :=
  if 0 < views then some (((likes : ℚ) / (views : ℚ)) * 100) else none

/-! ## Goal suggestion engine (goals.py, `Goals._generate_ai_suggestions`) -/

/-- The suggestion record returned by `_generate_ai_suggestions`. -/
structure AiSuggestions where
  avg24hViews : Int
  max24hViews : Int
  recommended24hViews : Int
  analysis24h : String
  avgDailyViews : Int
  maxDailyViews : Int
  recommendedDailyViews : Int
  analysisDaily : String
deriving DecidableEq

/-- Model of `Goals._generate_ai_suggestions` (goals.py lines 312-389):
`None` when there is no video data or the trailing 30-day window is
empty; otherwise the suggestions, with
`avg = int(mean(views))` (the float mean truncated by `int(...)`),
`recommended_24h = int(avg * 1.2)`, the 5-newest/5-oldest trend
comparison (`nlargest`/`nsmallest` by publish time = stable sort, first
five), and the daily estimates of lines 358-362. -/
def generateAiSuggestions (now : Int) (l : List VideoRow) : Option AiSuggestions :=
  if l.isEmpty then none
  else
    let recent := l.filter fun r => decide (now - 30 * 86400 ≤ r.publishedAt)
    if recent.isEmpty then none
    else
      let avgViews : Int := pyInt (listMeanQ (recent.map fun r => r.views))
      let maxViews : Int := (listMaxN (recent.map fun r => r.views) : Int)
      let recommended24h : Int := pyInt ((avgViews : ℚ) * (6 / 5))
      let recent5 : ℚ := listMeanQ (((sortStep SortKey.pubDesc recent).take 5).map fun r => r.views)
      let older5 : ℚ := listMeanQ (((sortStep SortKey.pubAsc recent).take 5).map fun r => r.views)
      let trend24h : String :=
        if 5 ≤ recent.length then
          if recent5 > older5 * (11 / 10) then "上昇傾向です。やや高めの目標でも達成可能でしょう。"
          else if recent5 < older5 * (9 / 10) then "下降傾向です。現実的な目標設定を推奨します。"
          else "安定しています。平均より少し高めの目標が適切です。"
        else "データが少ないため、平均値ベースの目標を推奨します。"
      let dailyVideos : ℚ := (recent.length : ℚ) / 30
      let avgDailyV : Int := pyInt ((avgViews : ℚ) * dailyVideos * 10)
      let maxDailyV : Int := pyInt ((maxViews : ℚ) * dailyVideos * 15)
      let recommendedDaily : Int := pyInt ((avgDailyV : ℚ) * (23 / 20))
      let trendDaily : String :=
        if 5 ≤ recent.length then
          if recent5 > older5 * (11 / 10) then "チャンネル全体の再生回数が増加傾向です。"
          else if recent5 < older5 * (9 / 10) then "チャンネル全体の再生回数が減少傾向です。"
          else "チャンネル全体の再生回数は安定しています。"
        else "データが少ないため、控えめな目標を推奨します。"
      some { avg24hViews := avgViews, max24hViews := maxViews,
             recommended24hViews := recommended24h, analysis24h := trend24h,
             avgDailyViews := avgDailyV, maxDailyViews := maxDailyV,
             recommendedDailyViews := recommendedDaily, analysisDaily := trendDaily }

/-! ## Calendar arithmetic

Gregorian date fields from a timestamp, for the report's date labels.
`daysToCivil` is the standard civil-from-days algorithm — the same
proleptic-Gregorian arithmetic Python's `datetime`/`date` performs. -/

/-- Civil (Gregorian) `(year, month, day)` from a day number (days since
1970-01-01). -/
def daysToCivil (z0 : Int) : Int × Int × Int :=
  let z := z0 + 719468
  let era := Int.fdiv z 146097
  let doe := z - era * 146097
  let yoe := Int.fdiv (doe - Int.fdiv doe 1460 + Int.fdiv doe 36524 - Int.fdiv doe 146096) 365
  let y := yoe + era * 400
  let doy := doe - (365 * yoe + Int.fdiv yoe 4 - Int.fdiv yoe 100)
  let mp := Int.fdiv (5 * doy + 2) 153
  let d := doy - Int.fdiv (153 * mp + 2) 5 + 1
  let m := if mp < 10 then mp + 3 else mp - 9
  (if m ≤ 2 then y + 1 else y, m, d)

/-- Day number of a timestamp (floor division, as Python dates do). -/
def tsDays (ts : Int) : Int := Int.fdiv ts 86400

/-- `.month` of a timestamp. -/
def tsMonth (ts : Int) : Int := (daysToCivil (tsDays ts)).2.1

/-- `.day` of a timestamp. -/
def tsDay (ts : Int) : Int := (daysToCivil (tsDays ts)).2.2

/-- `.hour` of a timestamp. -/
def tsHour (ts : Int) : Int := Int.fdiv (ts - 86400 * tsDays ts) 3600

/-- `.month` of a day number. -/
def dayMonth (d : Int) : Int := (daysToCivil d).2.1

/-- `.day` of a day number. -/
def dayDay (d : Int) : Int := (daysToCivil d).2.2

/-! ## Goals data (goals.py) -/

/-- The current goals dictionary built by `Goals._get_current_goals`
(goals.py lines 271-290). -/
structure GoalsCfg where
  goal24hViews : Int
  goalDailyViews : Int
  goalMonthlyRevenue : Int
  goalDailyRevenue : Int
deriving DecidableEq

/-- Model of `current_goals.get(key, 0)`: `none` is the empty dict that
`_get_current_goals` returns when the goal sheet is empty or unreadable,
for which every lookup yields the default 0. -/
def goalsGet (g : Option GoalsCfg) (f : GoalsCfg → Int) : Int :=
  match g with
  | none => 0
  | some c => f c

/-! ## Report composer (report_generator.py, `ReportGenerator._generate_report`) -/

/-- The settings dict assembled by `_show_report_creation`
(report_generator.py lines 170-178) just before `_generate_report`
runs.  `selectedRevenueDate` is a calendar date (day number). -/
structure ReportSettings where
  includeNewVideo : Bool
  includeRevenue : Bool
  includeChannelStats : Bool
  includeTopVideos : Bool
  manualLikeRate : ℚ
  selectedVideo : Option VideoRow
  selectedRevenueDate : Option Int

/-- Result of `Goals._get_latest_actual_data` (goals.py lines 391-437);
`_generate_report` fetches it (line 226) but never reads it. -/
structure ActualVals where
  new24hViews : Int
  dailyTotalViews : Int
  monthlyRevenue : Int
  dailyRevenue : Int
deriving DecidableEq

/-- Fallback newest video (report_generator.py lines 250-257):
stable-descending sort by publish time, first row. -/
def latestVideo (l : List VideoRow) : Option VideoRow :=
  (sortStep SortKey.pubDesc l).head?

/-- Publish time and views of the reported video (lines 244-260): the
explicitly selected video, else the newest record, else nothing. -/
def resolveNewVideo (sel : Option VideoRow) (l : List VideoRow) : Option Int × Nat :=
  match sel with
  | some v => (some v.publishedAt, v.views)
  | none =>
    match latestVideo l with
    | some v => (some v.publishedAt, v.views)
    | none => (none, 0)

/-- The publish-time line of the new-video section (lines 262-267):
fixed UTC+9h offset, or 不明 when no date is available. -/
def pubDateStr (pd : Option Int) : List Char :=
  match pd with
  | none => ("不明").data
  | some ts =>
    let j := ts + 9 * 3600
    intChars (tsMonth j) ++ ("月").data ++ intChars (tsDay j) ++ ("日分　").data
      ++ intChars (tsHour j) ++ ("時公開").data

/-- The verdict of line 275: 達成 when the actual count reaches the
goal, 未達 otherwise. -/
def achievementStr (views : Nat) (goal : Int) : List Char :=
  if goal ≤ (views : Int) then ("達成").data else ("未達").data

/-- The 24時間視聴回数 lines (lines 272-280): with a positive goal a
目標/結果 line carrying the verdict, otherwise a bare 結果 line with no
verdict. -/
def viewsGoalLines (goal24 : Int) (views : Nat) : List (List Char) :=
  if 0 < goal24 then
    [("　◇24時間視聴回数").data,
     ("　　目標：").data ++ fmtCommaI goal24 ++ ("回　結果：").data ++ fmtComma views
       ++ ("回（").data ++ achievementStr views goal24 ++ ("）").data]
  else
    [("　◇24時間視聴回数").data, ("　　結果：").data ++ fmtComma views ++ ("回").data]

/-- The 24時間高評価率 lines (lines 284-295): a 目標/結果 line with a
verdict when the manually entered like-rate is positive, otherwise the
enter-it-in-YouTube-Studio placeholder with no verdict. -/
def likeRateLines (manual goalRate : ℚ) : List (List Char) :=
  if 0 < manual then
    [("　◇24時間高評価率").data,
     ("　　目標：").data ++ fmtFixed0 goalRate ++ ("％　結果：").data ++ fmtFixed1 manual
       ++ ("%（").data ++ (if goalRate ≤ manual then ("達成").data else ("未達").data)
       ++ ("）").data]
  else
    [("　◇24時間高評価率").data, ("　　※YouTube Studioで確認して入力してください").data]

/-- Body of the ■新規投稿動画について section, after its header
(report_generator.py lines 243-312). -/
def newVideoBody (sel : Option VideoRow) (l : List VideoRow) (goal24 : Int)
    (manual goalRate : ℚ) : List (List Char) :=
  let pv := resolveNewVideo sel l
  pubDateStr pv.1
    :: (viewsGoalLines goal24 pv.2 ++ [[]]
      ++ likeRateLines manual goalRate ++ [[]]
      ++ [("　◇投稿後1時間のインプレッションのクリック率").data,
          ("　　※YouTube Analytics API実装後に取得可能").data, [],
          ("　◇チャンネル登録者の視聴回数").data,
          ("　　※YouTube Analytics API実装後に取得可能").data, [],
          ("　◇24時間チャンネル登録者数").data,
          ("　　※YouTube Analytics API実装後に取得可能").data, [], []])

/-- The ■新規投稿動画について section (report_generator.py lines
240-312). -/
def newVideoBlock (sel : Option VideoRow) (l : List VideoRow) (goal24 : Int)
    (manual goalRate : ℚ) : List (List Char) :=
  ("■新規投稿動画について").data :: newVideoBody sel l goal24 manual goalRate

/-- The revenue date label (lines 319-324): the chosen date, else
yesterday. -/
def revenueDateStr (sel : Option Int) (nowTs : Int) : List Char :=
  match sel with
  | some d => intChars (dayMonth d) ++ ("月").data ++ intChars (dayDay d) ++ ("日").data
  | none =>
    let y := nowTs - 86400
    intChars (tsMonth y) ++ ("月").data ++ intChars (tsDay y) ++ ("日").data

/-- Body of the ■収益について section, after its header (lines
318-337). -/
def revenueBody (sel : Option Int) (nowTs : Int) (monthlyGoal : Int) : List (List Char) :=
  [revenueDateStr sel nowTs ++ ("分").data,
   ("※YouTube Analytics API実装後に取得可能").data, [],
   (if 0 < monthlyGoal then
      intChars (tsMonth nowTs) ++ ("月合計（目標利益：").data ++ fmtCommaI monthlyGoal
        ++ ("円）").data
    else intChars (tsMonth nowTs) ++ ("月合計").data),
   ("※YouTube Analytics API実装後に取得可能").data, []]

/-- The ■収益について section (lines 315-337). -/
def revenueBlock (sel : Option Int) (nowTs : Int) (monthlyGoal : Int) : List (List Char) :=
  ("■収益について").data :: revenueBody sel nowTs monthlyGoal

/-- Sum of the 再生回数 column. -/
def totalViews (l : List VideoRow) : Nat := (l.map fun r => r.views).sum

/-- Sum of the 高評価数 column. -/
def totalLikes (l : List VideoRow) : Nat := (l.map fun r => r.likes).sum

/-- Body of the ■チャンネル統計 section, after its header (lines
343-355). -/
def statsBody (l : List VideoRow) : List (List Char) :=
  [("・総再生回数: ").data ++ fmtComma (totalViews l) ++ ("回").data,
   ("・総高評価数: ").data ++ fmtComma (totalLikes l) ++ ("件").data,
   ("・動画数: ").data ++ natDigits l.length ++ ("本").data, []]

/-- The ■チャンネル統計 section (lines 340-355), emitted only when the
flag is on and the data is nonempty. -/
def statsBlock (l : List VideoRow) : List (List Char) :=
  ("■チャンネル統計").data :: statsBody l

/-- `nlargest(5, 再生回数)`: the first five of the stable descending
sort by views (lines 363-364). -/
def topFive (l : List VideoRow) : List VideoRow :=
  (l.mergeSort (sortLe SortKey.viewsDesc)).take 5

/-- One numbered line of the top-5 ranking (line 369). -/
def topLine (i : Nat) (r : VideoRow) : List Char :=
  natDigits i ++ (". ").data ++ strOfTitle r.title ++ (": ").data
    ++ fmtComma r.views ++ ("回").data

/-- Body of the ■再生回数トップ5 section, after its header (lines
361-371). -/
def topBody (l : List VideoRow) : List (List Char) :=
  ((topFive l).enum.map fun p => topLine (p.1 + 1) p.2) ++ [[]]

/-- The ■再生回数トップ5 section (lines 358-371), emitted only when the
flag is on and the data is nonempty. -/
def topBlock (l : List VideoRow) : List (List Char) :=
  ("■再生回数トップ5").data :: topBody l

/-- Model of `ReportGenerator._generate_report` (report_generator.py
lines 212-375), as the list of report lines.  `actuals` is fetched by
the source (line 226) but never used.  The like-rate goal is
`current_goals.get("goal_like_rate", 90.0)` and `_get_current_goals`
never stores that key, so it is the constant 90.  The ■チャンネル統計
and ■再生回数トップ5 sections are guarded by `not video_data.empty`
(lines 340 and 358). -/
def generateReport (s : ReportSettings) (videoData : List VideoRow)
    (goals : Option GoalsCfg) (actuals : ActualVals) (nowTs : Int) : List (List Char) :=
  [("日報をお送りいたします").data, []]
  ++ (if s.includeNewVideo then
        newVideoBlock s.selectedVideo videoData (goalsGet goals fun c => c.goal24hViews)
          s.manualLikeRate 90
      else [])
  ++ (if s.includeRevenue then
        revenueBlock s.selectedRevenueDate nowTs (goalsGet goals fun c => c.goalMonthlyRevenue)
      else [])
  ++ (if s.includeChannelStats && !videoData.isEmpty then statsBlock videoData else [])
  ++ (if s.includeTopVideos && !videoData.isEmpty then topBlock videoData else [])

/-- The final report string: the lines joined with newlines
(report_generator.py line 375). -/
def reportText (s : ReportSettings) (videoData : List VideoRow)
    (goals : Option GoalsCfg) (actuals : ActualVals) (nowTs : Int) : List Char :=
  List.intercalate ['\n'] (generateReport s videoData goals actuals nowTs)

/-- The four section headers of the report. -/
def reportHdrs : List (List Char) :=
  [("■新規投稿動画について").data, ("■収益について").data,
   ("■チャンネル統計").data, ("■再生回数トップ5").data]

/-! ## Goals store (sheets_handler.py, `SheetsHandler.get_goals`) -/

/-- A converted cell of the goals DataFrame: the four numeric columns
become ints, other columns stay strings. -/
inductive GoalCell where
  | strc (s : List Char)
  | num (n : Int)
deriving DecidableEq

/-- The four numeric goal columns of sheets_handler.py line 304. -/
def goalNumericCols : List (List Char) :=
  [("新規動画24時間再生回数").data, ("1日総再生回数").data,
   ("月間収益").data, ("1日収益").data]

/-- Value of a digit string, most significant first. -/
def digitsVal (ds : List Char) : Nat :=
  ds.foldl (fun a c => a * 10 + (c.toNat - 48)) 0

/-- Model of `pd.to_numeric(s, errors="coerce")` on one cell string, for
the decimal fragment: optional surrounding whitespace, an optional sign,
then integer digits with an optional fractional part; anything else is
NaN (`none`).  Exponent and other literal forms are outside the model. -/
def pdToNumeric (s : List Char) : Option ℚ :=
  let t := pyStrip s
  let su : ℚ × List Char :=
    match t with
    | '-' :: rest => (-1, rest)
    | '+' :: rest => (1, rest)
    | _ => (1, t)
  let ip := su.2.takeWhile Char.isDigit
  let rest := su.2.dropWhile Char.isDigit
  match rest with
  | [] => if ip.isEmpty then none else some (su.1 * (digitsVal ip : ℚ))
  | '.' :: fp =>
    if fp.all Char.isDigit && !(ip.isEmpty && fp.isEmpty) then
      some (su.1 * ((digitsVal ip : ℚ) + (digitsVal fp : ℚ) / ((10 : ℚ) ^ fp.length)))
    else none
  | _ => none

/-- One goal cell after the numeric conversion of sheets_handler.py
lines 304-307: `pd.to_numeric(.., errors="coerce").fillna(0).astype(int)`
— a cell that fails numeric parsing becomes the integer 0. -/
def goalCellVal (s : List Char) : Int :=
  match pdToNumeric s with
  | none => 0
  | some q => pyInt q

/-- Convert one data row of the goals sheet against its header row. -/
def convertGoalRow (headers row : List (List Char)) : List GoalCell :=
  (headers.zip row).map fun p =>
    if p.1 ∈ goalNumericCols then GoalCell.num (goalCellVal p.2) else GoalCell.strc p.2

/-- Model of `SheetsHandler.get_goals` (sheets_handler.py lines 283-313):
fewer than two sheet rows (a header plus at least one entry are
required) give the empty DataFrame (`none`); otherwise the header row
and the converted data rows.  Headers are assumed distinct and the rows
rectangular, as `get_all_values` returns them. -/
def getGoals (data : List (List (List Char))) :
    Option (List (List Char) × List (List GoalCell)) :=
  match data with
  | [] => none
  | [_] => none
  | headers :: rows => some (headers, rows.map (convertGoalRow headers))

/-- Integer value of a looked-up goal cell: the converted int when
present, the lookup default 0 otherwise. -/
def cellInt : Option GoalCell → Int
  | some (GoalCell.num n) => n
  | _ => 0

/-- Field lookup of `_get_current_goals`: `int(latest_goal.get(col, 0))`
against the converted row (the looked-up columns are among the numeric
ones, so a present cell is always a converted int). -/
def goalField (headers : List (List Char)) (row : List GoalCell) (col : List Char) : Int :=
  match headers.indexOf? col with
  | none => 0
  | some i => cellInt row[i]?

/-- Model of `Goals._get_current_goals` (goals.py lines 271-290): the
four numeric fields of the last row of the goals table, or the empty
dict (`none`) when the table is empty. -/
def currentGoals (data : List (List (List Char))) : Option GoalsCfg :=
  match getGoals data with
  | none => none
  | some (headers, rows) =>
    match rows.getLast? with
    | none => none
    | some last =>
      some { goal24hViews := goalField headers last (("新規動画24時間再生回数").data),
             goalDailyViews := goalField headers last (("1日総再生回数").data),
             goalMonthlyRevenue := goalField headers last (("月間収益").data),
             goalDailyRevenue := goalField headers last (("1日収益").data) }

/-- A goals-sheet header row for concrete examples. -/
def goalHdrRow : List (List Char) :=
  [("設定日時").data, ("新規動画24時間再生回数").data, ("1日総再生回数").data,
   ("月間収益").data, ("1日収益").data]

/-- A corrupted goals entry for concrete examples: all four numeric
cells fail numeric parsing. -/
def badGoalRow : List (List Char) :=
  [("2024-01-01 00:00:00").data, ("abc").data, ("").data, ("x1").data, ("--").data]

/-! ## Filter engine lemmas -/

theorem searchStep_of_strip_nil {s : List Char} (h : pyStrip s = []) (l : List VideoRow) :
    searchStep s l = l := by
  simp [searchStep, h]

/-- C5: the custom period filter keeps exactly the records in the
half-open window `[start, end + 1 day)`; in particular a record whose
publish time is the last second of the end date is kept and a record
published at midnight of the following day is dropped. -/
theorem customPeriod_window (now s e : Int) (l : List VideoRow) (r : VideoRow) :
    (r ∈ periodStep now (Period.custom s e) l ↔
      r ∈ l ∧ 86400 * s ≤ r.publishedAt ∧ r.publishedAt < 86400 * (e + 1)) ∧
    (s ≤ e →
      periodKeep now (Period.custom s e) { r with publishedAt := 86400 * e + 86399 } = true) ∧
    periodKeep now (Period.custom s e) { r with publishedAt := 86400 * (e + 1) } = false := by
  refine ⟨?_, ?_, ?_⟩
  · simp [periodStep, periodKeep, List.mem_filter, and_assoc]
  · intro hse
    simp only [periodKeep]
    simp only [Bool.and_eq_true, decide_eq_true_eq]
    omega
  · simp only [periodKeep]
    simp only [Bool.and_eq_true, decide_eq_true_eq, Bool.and_eq_false_iff,
      decide_eq_false_iff_not, not_lt, not_le]
    omega

/-- C5 witness: concrete boundary instances of `customPeriod_window`. -/
theorem customPeriod_window_witness :
    periodKeep 0 (Period.custom 3 5) { videoId := [], title := none, publishedAt := 86400 * 5 + 86399, views := 0, likes := 0, comments := 0 } = true ∧
    periodKeep 0 (Period.custom 3 5) { videoId := [], title := none, publishedAt := 86400 * 6, views := 0, likes := 0, comments := 0 } = false := by
  have h := customPeriod_window 0 3 5 []
    { videoId := [], title := none, publishedAt := 0, views := 0, likes := 0, comments := 0 }
  exact ⟨h.2.1 (by omega), h.2.2⟩

/-! ## Search filter: literal patterns versus substring containment -/

theorem parsePat_eq_lit {p : List Char} (h : '.' ∉ p) : parsePat p = p.map RTok.lit := by
  refine List.map_congr_left fun c hc => ?_
  rw [if_neg]
  intro he
  exact h (he ▸ hc)

theorem matchesAt_nil (s : List Char) : matchesAt [] s = true := rfl

theorem matchesAt_cons_nil (t : RTok) (ts : List RTok) : matchesAt (t :: ts) [] = false := rfl

theorem matchesAt_cons_cons (t : RTok) (ts : List RTok) (c : Char) (cs : List Char) :
    matchesAt (t :: ts) (c :: cs) = (tokMatch t c && matchesAt ts cs) := rfl

theorem reSearch_nil (pat : List RTok) : reSearch pat [] = matchesAt pat [] := rfl

theorem reSearch_cons (pat : List RTok) (c : Char) (cs : List Char) :
    reSearch pat (c :: cs) = (matchesAt pat (c :: cs) || reSearch pat cs) := rfl

theorem matchesAt_lit_iff (w s : List Char) :
    matchesAt (w.map RTok.lit) s = true ↔ w <+: s := by
  induction w generalizing s with
  | nil => simp [matchesAt_nil]
  | cons c cs ih =>
    cases s with
    | nil => simp [matchesAt_cons_nil]
    | cons d ds =>
      simp [matchesAt_cons_cons, tokMatch, ih, List.cons_prefix_cons]

theorem reSearch_lit_iff (w s : List Char) :
    reSearch (w.map RTok.lit) s = true ↔ w <:+: s := by
  induction s with
  | nil =>
    rw [reSearch_nil]
    simp [matchesAt_lit_iff]
  | cons c cs ih =>
    rw [reSearch_cons]
    simp only [Bool.or_eq_true, matchesAt_lit_iff, ih, List.infix_cons_iff]

/-- C4 counterexample: the search filter of `_apply_filters` does not
implement case-insensitive literal substring search on the raw title.
A record with a missing title is stringified to `"nan"` and is kept by
the search `"nan"`; the search text is a regular expression, so `"a.c"`
keeps a record titled `"abc"` although `"a.c"` is not a literal
substring of it; and the search text is stripped first, so `" morning "`
keeps `"Morning Vlog"` although the literal text `" morning "` (with its
spaces) is not a substring of the title. -/
theorem searchFilter_counterexample :
    (searchStep ("nan").data
        [{ videoId := ("v1").data, title := none, publishedAt := 0,
           views := 0, likes := 0, comments := 0 }] =
      [{ videoId := ("v1").data, title := none, publishedAt := 0,
         views := 0, likes := 0, comments := 0 }]) ∧
    (searchStep ("a.c").data
        [{ videoId := ("v2").data, title := some ("abc").data, publishedAt := 0,
           views := 0, likes := 0, comments := 0 }] =
      [{ videoId := ("v2").data, title := some ("abc").data, publishedAt := 0,
         views := 0, likes := 0, comments := 0 }]) ∧
    ¬ lowerChars ("a.c").data <:+: lowerChars ("abc").data ∧
    (searchStep (" morning ").data
        [{ videoId := ("v3").data, title := some ("Morning Vlog").data, publishedAt := 0,
           views := 0, likes := 0, comments := 0 }] =
      [{ videoId := ("v3").data, title := some ("Morning Vlog").data, publishedAt := 0,
         views := 0, likes := 0, comments := 0 }]) ∧
    ¬ lowerChars (" morning ").data <:+: lowerChars ("Morning Vlog").data := by
  decide

/-- C4 (amended): an empty or whitespace-only search text is a no-op;
otherwise, for search texts that contain no regex metacharacter, the
filter keeps exactly the records whose stringified title (missing
titles become `"nan"`) contains the stripped search text as a
case-insensitive substring. -/
theorem searchStep_amended (term : List Char) (l : List VideoRow)
    (hmeta : ∀ c ∈ lowerChars (pyStrip term), c ∉ reMetachars) :
    (pyStrip term = [] → searchStep term l = l) ∧
    (pyStrip term ≠ [] →
      searchStep term l = l.filter fun r =>
        decide (lowerChars (pyStrip term) <:+: lowerChars (strOfTitle r.title))) := by
  have hdot : '.' ∉ lowerChars (pyStrip term) := fun hd => hmeta '.' hd (by decide)
  refine ⟨fun h => searchStep_of_strip_nil h l, fun h => ?_⟩
  simp only [searchStep]
  rw [if_neg h]
  refine List.filter_congr fun r _ => ?_
  have hiff := reSearch_lit_iff (lowerChars (pyStrip term)) (lowerChars (strOfTitle r.title))
  simp only [searchKeep, parsePat_eq_lit hdot]
  refine Bool.eq_iff_iff.mpr ?_
  rw [hiff, decide_eq_true_eq]

/-- C4 witness: concrete instances of `searchStep_amended`. -/
theorem searchStep_amended_witness :
    (searchStep ("Morning").data
        [{ videoId := ("v3").data, title := some ("Morning Vlog").data, publishedAt := 0,
           views := 0, likes := 0, comments := 0 }] =
      List.filter (fun r =>
          decide (lowerChars (pyStrip ("Morning").data) <:+: lowerChars (strOfTitle r.title)))
        [{ videoId := ("v3").data, title := some ("Morning Vlog").data, publishedAt := 0,
           views := 0, likes := 0, comments := 0 }]) ∧
    searchStep ("  ").data [] = [] :=
  ⟨(searchStep_amended ("Morning").data _ (by decide)).2 (by decide),
   (searchStep_amended ("  ").data [] (by decide)).1 (by decide)⟩

theorem round2_zero : round2 0 = 0 := by
  norm_num [round2, roundHalfEven]

/-- C1 counterexample: for a record with 0 views and 5 likes the spec
like-rate is undefined, yet the performance table's 高評価率(%) column
computes the number 0 for it — the table does substitute 0 for the
like-rate of a zero-view record. -/
theorem likeRate_zero_views_counterexample :
    specLikeRate 0 5 = none ∧ tableLikeRateCell (mkRow 0 0 5) = 0 := by
  refine ⟨rfl, ?_⟩
  show round2 (tableLikeRateRaw (mkRow 0 0 5)) = 0
  rw [show tableLikeRateRaw (mkRow 0 0 5) = 0 from rfl]
  exact round2_zero

/-- C1 (amended): the spec-level like-rate is undefined exactly for
zero-view records, and the summary average excludes zero-view records
(showing `N/A` when none are left); but in the performance table the
高評価率(%) cell of a zero-view record is the number 0 (rather than an
undefined marker), and only for positive views does it equal
`likes/views*100` rounded to two decimals. -/
theorem likeRate_amended (l : List VideoRow) (r : VideoRow) :
    (specLikeRate r.views r.likes = none ↔ r.views = 0) ∧
    (summaryAvgLikeRate l = none ↔ summaryValidVideos l = []) ∧
    (r.views = 0 → tableLikeRateCell r = 0) ∧
    (0 < r.views → tableLikeRateCell r = round2 (((r.likes : ℚ) / (r.views : ℚ)) * 100)) := by
  refine ⟨?_, ?_, ?_, ?_⟩
  · by_cases h : 0 < r.views <;> simp [specLikeRate, h] <;> omega
  · by_cases h : (summaryValidVideos l).isEmpty
    · simp [summaryAvgLikeRate, h, List.isEmpty_iff.mp h]
    · simp [summaryAvgLikeRate, h]
      exact fun he => h (List.isEmpty_iff.mpr he)
  · intro h
    rw [tableLikeRateCell, show tableLikeRateRaw r = 0 by simp [tableLikeRateRaw, h]]
    exact round2_zero
  · intro h
    rw [tableLikeRateCell, tableLikeRateRaw, if_pos h]

/-- C1 witness: concrete instances of `likeRate_amended`. -/
theorem likeRate_amended_witness :
    summaryAvgLikeRate [] = none ∧
    tableLikeRateCell (mkRow 0 0 5) = 0 ∧
    tableLikeRateCell (mkRow 0 200 10) = round2 (((10 : ℚ) / (200 : ℚ)) * 100) :=
  ⟨(likeRate_amended [] (mkRow 0 0 5)).2.1.mpr rfl,
   (likeRate_amended [] (mkRow 0 0 5)).2.2.1 rfl,
   (likeRate_amended [] (mkRow 0 200 10)).2.2.2 (by decide)⟩

theorem isEmpty_false_of_ne_nil {α : Type} {l : List α} (h : l ≠ []) : l.isEmpty = false := by
  cases l with
  | nil => exact absurd rfl h
  | cons a as => rfl

/-- Reduction of `generateAiSuggestions` on nonempty data with a
nonempty window, projected to the recommended 24-hour target. -/
theorem generateAiSuggestions_rec24 (now : Int) (l : List VideoRow)
    (hl : l.isEmpty = false)
    (hr : (l.filter fun r => decide (now - 30 * 86400 ≤ r.publishedAt)).isEmpty = false) :
    (generateAiSuggestions now l).map (fun s => s.recommended24hViews) =
      some (pyInt ((pyInt (listMeanQ
        ((l.filter fun r => decide (now - 30 * 86400 ≤ r.publishedAt)).map fun r => r.views)) : ℚ)
          * (6 / 5))) := by
  unfold generateAiSuggestions
  simp only [hl, hr, Bool.false_eq_true, if_false]
  rfl

/-- C6 counterexample: for two in-window records with views 100 and 105
the engine recommends `int(int(102.5) * 1.2) = 122`, whereas
`floor(avgViews * 1.2)` with `avgViews` the arithmetic mean (102.5)
equals 123 — the code truncates the mean to an integer before applying
the 1.2 factor. -/
theorem aiSuggestions_counterexample :
    ((generateAiSuggestions 0 [mkRow (-1000) 100 0, mkRow (-2000) 105 0]).map
      fun s => s.recommended24hViews) = some 122 ∧
    ⌊listMeanQ [100, 105] * (6 / 5)⌋ = (123 : Int) := by
  constructor
  · rw [generateAiSuggestions_rec24 0 [mkRow (-1000) 100 0, mkRow (-2000) 105 0]
      (by decide) (by decide)]
    norm_num [List.filter, mkRow, listMeanQ, pyInt]
  · norm_num [listMeanQ]

/-- C6 (amended): the engine returns `None` exactly when the video data
or its trailing 30-day window is empty; otherwise its recommended
24-hour view target is `int(int(mean(views)) * 1.2)` over the window —
the arithmetic mean is truncated to an integer before the 1.2 factor is
applied (for views [100, 200, 300]: mean 200, recommendation 240). -/
theorem aiSuggestions_amended (now : Int) (l : List VideoRow) :
    (generateAiSuggestions now l = none ↔
      (l = [] ∨ l.filter (fun r => decide (now - 30 * 86400 ≤ r.publishedAt)) = [])) ∧
    (l ≠ [] → l.filter (fun r => decide (now - 30 * 86400 ≤ r.publishedAt)) ≠ [] →
      (generateAiSuggestions now l).map (fun s => s.recommended24hViews) =
        some (pyInt ((pyInt (listMeanQ
          ((l.filter fun r => decide (now - 30 * 86400 ≤ r.publishedAt)).map fun r => r.views)) : ℚ)
            * (6 / 5)))) := by
  by_cases hl : l = []
  · subst hl
    exact ⟨by simp [generateAiSuggestions], fun h _ => (h rfl).elim⟩
  · by_cases hr : l.filter (fun r => decide (now - 30 * 86400 ≤ r.publishedAt)) = []
    · refine ⟨?_, fun _ h => absurd hr h⟩
      unfold generateAiSuggestions
      rw [isEmpty_false_of_ne_nil hl, hr]
      simp
    · have hmap := generateAiSuggestions_rec24 now l
        (isEmpty_false_of_ne_nil hl) (isEmpty_false_of_ne_nil hr)
      refine ⟨?_, fun _ _ => hmap⟩
      simp only [hl, hr, or_self, iff_false]
      intro hnone
      rw [hnone] at hmap
      exact Option.noConfusion hmap

/-- C6 witness: the spec's own example through `aiSuggestions_amended`:
views [100, 200, 300] inside the window give recommendation 240. -/
theorem aiSuggestions_amended_witness :
    ((generateAiSuggestions 0
        [mkRow (-1000) 100 0, mkRow (-2000) 200 0, mkRow (-3000) 300 0]).map
      fun s => s.recommended24hViews) = some 240 := by
  have h := (aiSuggestions_amended 0
    [mkRow (-1000) 100 0, mkRow (-2000) 200 0, mkRow (-3000) 300 0]).2
    (by decide) (by decide)
  rw [h]
  norm_num [List.filter, mkRow, listMeanQ, pyInt]

/-! ## Report composer theorems -/

/-- C9: report generation is deterministic — identical settings, video
records, goals, actuals and current time produce byte-identical report
text. -/
theorem reportText_deterministic (s₁ s₂ : ReportSettings) (l₁ l₂ : List VideoRow)
    (g₁ g₂ : Option GoalsCfg) (a₁ a₂ : ActualVals) (n₁ n₂ : Int)
    (hs : s₁ = s₂) (hl : l₁ = l₂) (hg : g₁ = g₂) (ha : a₁ = a₂) (hn : n₁ = n₂) :
    reportText s₁ l₁ g₁ a₁ n₁ = reportText s₂ l₂ g₂ a₂ n₂ := by
  subst hs; subst hl; subst hg; subst ha; subst hn; rfl

/-- C9 witness: a concrete instance of `reportText_deterministic`. -/
theorem reportText_deterministic_witness :
    reportText ⟨true, true, false, false, 0, none, none⟩ [] none ⟨0, 0, 0, 0⟩ 0 =
      reportText ⟨true, true, false, false, 0, none, none⟩ [] none ⟨0, 0, 0, 0⟩ 0 :=
  reportText_deterministic _ _ _ _ _ _ _ _ _ _ rfl rfl rfl rfl rfl

/-- C8: when the new-video section is enabled it appears in the report;
with a positive goal the 24-hour-views line carries a verdict that is
達成 exactly when the views reach the goal and 未達 exactly when they
fall short; with a non-positive goal the section shows a bare result
line with no verdict; and a manually entered like-rate of 0 renders the
like-rate lines as the unavailable placeholder with no verdict. -/
theorem newVideo_achievement (s : ReportSettings) (l : List VideoRow)
    (g : Option GoalsCfg) (a : ActualVals) (n : Int)
    (h : s.includeNewVideo = true) :
    (newVideoBlock s.selectedVideo l (goalsGet g fun c => c.goal24hViews) s.manualLikeRate 90
        <:+: generateReport s l g a n) ∧
    (∀ g0 : Int, ∀ v : Nat, 0 < g0 →
      viewsGoalLines g0 v =
        [("　◇24時間視聴回数").data,
         ("　　目標：").data ++ fmtCommaI g0 ++ ("回　結果：").data ++ fmtComma v
           ++ ("回（").data ++ achievementStr v g0 ++ ("）").data]) ∧
    (∀ g0 : Int, ∀ v : Nat, (achievementStr v g0 = ("達成").data ↔ g0 ≤ (v : Int))) ∧
    (∀ g0 : Int, ∀ v : Nat, (achievementStr v g0 = ("未達").data ↔ (v : Int) < g0)) ∧
    (∀ g0 : Int, ∀ v : Nat, g0 ≤ 0 →
      viewsGoalLines g0 v =
        [("　◇24時間視聴回数").data, ("　　結果：").data ++ fmtComma v ++ ("回").data]) ∧
    (s.manualLikeRate = 0 →
      likeRateLines s.manualLikeRate 90 =
        [("　◇24時間高評価率").data, ("　　※YouTube Studioで確認して入力してください").data]) := by
  refine ⟨?_, ?_, ?_, ?_, ?_, ?_⟩
  · rw [show generateReport s l g a n
        = [("日報をお送りいたします").data, []]
          ++ newVideoBlock s.selectedVideo l (goalsGet g fun c => c.goal24hViews)
              s.manualLikeRate 90
          ++ ((if s.includeRevenue then
                revenueBlock s.selectedRevenueDate n (goalsGet g fun c => c.goalMonthlyRevenue)
              else [])
            ++ ((if s.includeChannelStats && !l.isEmpty then statsBlock l else [])
              ++ (if s.includeTopVideos && !l.isEmpty then topBlock l else [])))
      from by simp [generateReport, h, List.append_assoc]]
    exact List.infix_append _ _ _
  · intro g0 v hg0
    simp only [viewsGoalLines]
    rw [if_pos hg0]
  · intro g0 v
    unfold achievementStr
    by_cases hle : g0 ≤ (v : Int)
    · rw [if_pos hle]
      exact ⟨fun _ => hle, fun _ => rfl⟩
    · rw [if_neg hle]
      exact ⟨fun hh => absurd hh (by decide), fun hh => absurd hh hle⟩
  · intro g0 v
    unfold achievementStr
    by_cases hle : g0 ≤ (v : Int)
    · rw [if_pos hle]
      exact ⟨fun hh => absurd hh (by decide), fun hh => absurd hh (by omega)⟩
    · rw [if_neg hle]
      exact ⟨fun _ => by omega, fun _ => rfl⟩
  · intro g0 v hg0
    simp only [viewsGoalLines]
    rw [if_neg (by omega)]
  · intro hm
    rw [hm]
    simp only [likeRateLines]
    rw [if_neg (by norm_num)]

/-- C8 witness: the end-to-end scenario — views 6000 against goal 5000
reads 達成, manual like-rate 0 yields the placeholder. -/
theorem newVideo_achievement_witness :
    (newVideoBlock (some (mkRow 0 6000 0)) [] 5000 0 90
        <:+: generateReport ⟨true, false, false, false, 0, some (mkRow 0 6000 0), none⟩ []
          (some ⟨5000, 0, 0, 0⟩) ⟨0, 0, 0, 0⟩ 0) ∧
    achievementStr 6000 5000 = ("達成").data ∧
    likeRateLines 0 90 =
      [("　◇24時間高評価率").data, ("　　※YouTube Studioで確認して入力してください").data] := by
  have h := newVideo_achievement ⟨true, false, false, false, 0, some (mkRow 0 6000 0), none⟩ []
    (some ⟨5000, 0, 0, 0⟩) ⟨0, 0, 0, 0⟩ 0 rfl
  exact ⟨h.1, (h.2.2.1 5000 6000).mpr (by omega), h.2.2.2.2.2 rfl⟩

/-! ## Section-presence lemmas (C2)

Every line of a section body differs from every section header: each
body line either is a fixed string none of which is a header, or
contains a character (`月`, `：`, `分`, `合`, `・`, `.`) that occurs in
no header. -/

theorem ne_hdr_of_mem {x : List Char} {c : Char} (hc : c ∈ x)
    (hh : ∀ h ∈ reportHdrs, c ∉ h) : ∀ h ∈ reportHdrs, x ≠ h :=
  fun h hm he => hh h hm (he ▸ hc)

theorem nil_ne_hdr : ∀ h ∈ reportHdrs, ([] : List Char) ≠ h := by decide

theorem pubDateStr_ne_hdr (pd : Option Int) : ∀ h ∈ reportHdrs, pubDateStr pd ≠ h := by
  cases pd with
  | none => decide
  | some ts =>
    refine ne_hdr_of_mem (c := '月') ?_ (by decide)
    simp only [pubDateStr, List.mem_append]
    exact Or.inl (Or.inl (Or.inl (Or.inl (Or.inr (by decide)))))

theorem viewsGoalLines_ne_hdr (g0 : Int) (v : Nat) :
    ∀ x ∈ viewsGoalLines g0 v, ∀ h ∈ reportHdrs, x ≠ h := by
  intro x hx
  unfold viewsGoalLines at hx
  split at hx <;> rcases List.mem_cons.mp hx with rfl | hx
  · decide
  · rcases List.mem_cons.mp hx with rfl | hx
    · refine ne_hdr_of_mem (c := '：') ?_ (by decide)
      simp only [List.mem_append]
      exact Or.inl (Or.inl (Or.inl (Or.inl (Or.inl (Or.inl (by decide))))))
    · exact absurd hx (List.not_mem_nil x)
  · decide
  · rcases List.mem_cons.mp hx with rfl | hx
    · refine ne_hdr_of_mem (c := '：') ?_ (by decide)
      simp only [List.mem_append]
      exact Or.inl (Or.inl (by decide))
    · exact absurd hx (List.not_mem_nil x)

theorem likeRateLines_ne_hdr (m gr : ℚ) :
    ∀ x ∈ likeRateLines m gr, ∀ h ∈ reportHdrs, x ≠ h := by
  intro x hx
  unfold likeRateLines at hx
  split at hx <;> rcases List.mem_cons.mp hx with rfl | hx
  · decide
  · rcases List.mem_cons.mp hx with rfl | hx
    · refine ne_hdr_of_mem (c := '：') ?_ (by decide)
      simp only [List.mem_append]
      exact Or.inl (Or.inl (Or.inl (Or.inl (Or.inl (Or.inl (by decide))))))
    · exact absurd hx (List.not_mem_nil x)
  · decide
  · rcases List.mem_cons.mp hx with rfl | hx
    · decide
    · exact absurd hx (List.not_mem_nil x)

theorem newVideoBody_ne_hdr (sel : Option VideoRow) (l : List VideoRow) (g0 : Int)
    (m gr : ℚ) :
    ∀ x ∈ newVideoBody sel l g0 m gr, ∀ h ∈ reportHdrs, x ≠ h := by
  intro x hx
  simp only [newVideoBody, List.mem_cons, List.mem_append, List.mem_singleton,
    List.not_mem_nil, or_false, false_or, or_assoc] at hx
  rcases hx with rfl | hx
  · exact pubDateStr_ne_hdr _
  rcases hx with hx | hx
  · exact viewsGoalLines_ne_hdr g0 _ x hx
  rcases hx with rfl | hx
  · exact nil_ne_hdr
  rcases hx with hx | hx
  · exact likeRateLines_ne_hdr m gr x hx
  rcases hx with rfl | hx
  · exact nil_ne_hdr
  rcases hx with rfl | rfl | rfl | rfl | rfl | rfl | rfl | rfl | rfl | rfl
  · decide
  · decide
  · exact nil_ne_hdr
  · decide
  · decide
  · exact nil_ne_hdr
  · decide
  · decide
  · exact nil_ne_hdr
  · exact nil_ne_hdr

theorem revenueBody_ne_hdr (sel : Option Int) (n : Int) (mg : Int) :
    ∀ x ∈ revenueBody sel n mg, ∀ h ∈ reportHdrs, x ≠ h := by
  intro x hx
  simp only [revenueBody, List.mem_cons, List.not_mem_nil, or_false, false_or, or_assoc] at hx
  rcases hx with rfl | rfl | rfl | rfl | rfl | rfl
  · refine ne_hdr_of_mem (c := '分') ?_ (by decide)
    exact List.mem_append_right _ (by decide)
  · decide
  · exact nil_ne_hdr
  · refine ne_hdr_of_mem (c := '合') ?_ (by decide)
    split
    · simp only [List.mem_append, or_assoc]
      exact Or.inr (Or.inl (by decide))
    · exact List.mem_append_right _ (by decide)
  · decide
  · exact nil_ne_hdr

theorem statsBody_ne_hdr (l : List VideoRow) :
    ∀ x ∈ statsBody l, ∀ h ∈ reportHdrs, x ≠ h := by
  intro x hx
  simp only [statsBody, List.mem_cons, List.not_mem_nil, or_false, false_or, or_assoc] at hx
  rcases hx with rfl | rfl | rfl | rfl
  · exact ne_hdr_of_mem (c := '・')
      (List.mem_append_left _ (List.mem_append_left _ (by decide))) (by decide)
  · exact ne_hdr_of_mem (c := '・')
      (List.mem_append_left _ (List.mem_append_left _ (by decide))) (by decide)
  · exact ne_hdr_of_mem (c := '・')
      (List.mem_append_left _ (List.mem_append_left _ (by decide))) (by decide)
  · exact nil_ne_hdr

theorem topBody_ne_hdr (l : List VideoRow) :
    ∀ x ∈ topBody l, ∀ h ∈ reportHdrs, x ≠ h := by
  intro x hx
  simp only [topBody, List.mem_append, List.mem_singleton, List.mem_map] at hx
  rcases hx with ⟨p, _, rfl⟩ | rfl
  · refine ne_hdr_of_mem (c := '.') ?_ (by decide)
    simp only [topLine, List.mem_append, or_assoc]
    refine Or.inr (Or.inl ?_)
    decide
  · exact nil_ne_hdr

/-- C2 counterexample: with the channel-stats (resp. top-5) section
enabled but the video data empty, the generated report contains neither
the section header nor any placeholder — the enabled section is omitted
entirely, against the claim that it is always emitted with an
explicit unavailable line. -/
theorem sectionPresence_counterexample :
    ("■チャンネル統計").data ∉
      generateReport ⟨false, false, true, false, 0, none, none⟩ [] none ⟨0, 0, 0, 0⟩ 0 ∧
    ("■再生回数トップ5").data ∉
      generateReport ⟨false, false, false, true, 0, none, none⟩ [] none ⟨0, 0, 0, 0⟩ 0 := by
  decide

/-- C2 (amended): the new-video and revenue sections appear in the
report exactly when their flags are enabled (unavailable fields inside
them are rendered as placeholder lines), but the channel-stats and
top-5 sections appear exactly when their flags are enabled AND the
video data is nonempty — with no data these enabled sections are
omitted entirely. -/
theorem sectionPresence_amended (s : ReportSettings) (l : List VideoRow)
    (g : Option GoalsCfg) (a : ActualVals) (n : Int) :
    (("■新規投稿動画について").data ∈ generateReport s l g a n ↔ s.includeNewVideo = true) ∧
    (("■収益について").data ∈ generateReport s l g a n ↔ s.includeRevenue = true) ∧
    (("■チャンネル統計").data ∈ generateReport s l g a n ↔
      s.includeChannelStats = true ∧ l ≠ []) ∧
    (("■再生回数トップ5").data ∈ generateReport s l g a n ↔
      s.includeTopVideos = true ∧ l ≠ []) := by
  have key : ∀ x : List Char, x ∈ reportHdrs →
      (x ∈ generateReport s l g a n ↔
        ((s.includeNewVideo = true ∧ x = ("■新規投稿動画について").data) ∨
         (s.includeRevenue = true ∧ x = ("■収益について").data) ∨
         ((s.includeChannelStats && !l.isEmpty) = true ∧ x = ("■チャンネル統計").data) ∨
         ((s.includeTopVideos && !l.isEmpty) = true ∧ x = ("■再生回数トップ5").data))) := by
    intro x hx
    constructor
    · intro hmem
      simp only [generateReport, List.cons_append, List.nil_append, List.mem_cons,
        List.mem_append, List.not_mem_nil, or_false, false_or, or_assoc] at hmem
      rcases hmem with rfl | rfl | hmem | hmem | hmem | hmem
      · exact absurd hx (by decide)
      · exact absurd hx (by decide)
      · by_cases hc : s.includeNewVideo = true
        · rw [if_pos hc] at hmem
          rcases List.mem_cons.mp hmem with rfl | hmem
          · exact Or.inl ⟨hc, rfl⟩
          · exact absurd rfl (newVideoBody_ne_hdr _ _ _ _ _ x hmem x hx)
        · rw [if_neg hc] at hmem
          exact absurd hmem (List.not_mem_nil x)
      · by_cases hc : s.includeRevenue = true
        · rw [if_pos hc] at hmem
          rcases List.mem_cons.mp hmem with rfl | hmem
          · exact Or.inr (Or.inl ⟨hc, rfl⟩)
          · exact absurd rfl (revenueBody_ne_hdr _ _ _ x hmem x hx)
        · rw [if_neg hc] at hmem
          exact absurd hmem (List.not_mem_nil x)
      · by_cases hc : (s.includeChannelStats && !l.isEmpty) = true
        · rw [if_pos hc] at hmem
          rcases List.mem_cons.mp hmem with rfl | hmem
          · exact Or.inr (Or.inr (Or.inl ⟨hc, rfl⟩))
          · exact absurd rfl (statsBody_ne_hdr _ x hmem x hx)
        · rw [if_neg hc] at hmem
          exact absurd hmem (List.not_mem_nil x)
      · by_cases hc : (s.includeTopVideos && !l.isEmpty) = true
        · rw [if_pos hc] at hmem
          rcases List.mem_cons.mp hmem with rfl | hmem
          · exact Or.inr (Or.inr (Or.inr ⟨hc, rfl⟩))
          · exact absurd rfl (topBody_ne_hdr _ x hmem x hx)
        · rw [if_neg hc] at hmem
          exact absurd hmem (List.not_mem_nil x)
    · intro hdisj
      simp only [generateReport, List.cons_append, List.nil_append, List.mem_cons,
        List.mem_append, List.not_mem_nil, or_false, false_or, or_assoc]
      rcases hdisj with ⟨hc, rfl⟩ | ⟨hc, rfl⟩ | ⟨hc, rfl⟩ | ⟨hc, rfl⟩
      · refine Or.inr (Or.inr (Or.inl ?_))
        rw [if_pos hc]
        exact List.mem_cons_self _ _
      · refine Or.inr (Or.inr (Or.inr (Or.inl ?_)))
        rw [if_pos hc]
        exact List.mem_cons_self _ _
      · refine Or.inr (Or.inr (Or.inr (Or.inr (Or.inl ?_))))
        rw [if_pos hc]
        exact List.mem_cons_self _ _
      · refine Or.inr (Or.inr (Or.inr (Or.inr (Or.inr ?_))))
        rw [if_pos hc]
        exact List.mem_cons_self _ _
  refine ⟨?_, ?_, ?_, ?_⟩
  · rw [key _ (by decide)]
    constructor
    · rintro (⟨hc, _⟩ | ⟨_, he⟩ | ⟨_, he⟩ | ⟨_, he⟩)
      · exact hc
      · exact absurd he (by decide)
      · exact absurd he (by decide)
      · exact absurd he (by decide)
    · intro hc
      exact Or.inl ⟨hc, rfl⟩
  · rw [key _ (by decide)]
    constructor
    · rintro (⟨_, he⟩ | ⟨hc, _⟩ | ⟨_, he⟩ | ⟨_, he⟩)
      · exact absurd he (by decide)
      · exact hc
      · exact absurd he (by decide)
      · exact absurd he (by decide)
    · intro hc
      exact Or.inr (Or.inl ⟨hc, rfl⟩)
  · rw [key _ (by decide)]
    constructor
    · rintro (⟨_, he⟩ | ⟨_, he⟩ | ⟨hc, _⟩ | ⟨_, he⟩)
      · exact absurd he (by decide)
      · exact absurd he (by decide)
      · simp only [Bool.and_eq_true] at hc
        refine ⟨hc.1, fun hnil => ?_⟩
        rw [hnil] at hc
        simp at hc
      · exact absurd he (by decide)
    · rintro ⟨hf, hne⟩
      refine Or.inr (Or.inr (Or.inl ⟨?_, rfl⟩))
      rw [hf, isEmpty_false_of_ne_nil hne]
      rfl
  · rw [key _ (by decide)]
    constructor
    · rintro (⟨_, he⟩ | ⟨_, he⟩ | ⟨_, he⟩ | ⟨hc, _⟩)
      · exact absurd he (by decide)
      · exact absurd he (by decide)
      · exact absurd he (by decide)
      · simp only [Bool.and_eq_true] at hc
        refine ⟨hc.1, fun hnil => ?_⟩
        rw [hnil] at hc
        simp at hc
    · rintro ⟨hf, hne⟩
      refine Or.inr (Or.inr (Or.inr ⟨?_, rfl⟩))
      rw [hf, isEmpty_false_of_ne_nil hne]
      rfl

/-- C2 witness: concrete instances of `sectionPresence_amended` — with
an enabled stats flag but empty data the header is absent, and with one
record present it is emitted. -/
theorem sectionPresence_amended_witness :
    (("■チャンネル統計").data ∉
      generateReport ⟨true, true, true, true, 0, none, none⟩ [] none ⟨0, 0, 0, 0⟩ 0) ∧
    (("■チャンネル統計").data ∈
      generateReport ⟨true, true, true, true, 0, none, none⟩ [mkRow 0 1 0] none ⟨0, 0, 0, 0⟩ 0) ∧
    (("■収益について").data ∈
      generateReport ⟨true, true, true, true, 0, none, none⟩ [] none ⟨0, 0, 0, 0⟩ 0) := by
  refine ⟨?_, ?_, ?_⟩
  · intro hmem
    have h := (sectionPresence_amended ⟨true, true, true, true, 0, none, none⟩ []
      none ⟨0, 0, 0, 0⟩ 0).2.2.1.mp hmem
    exact h.2 rfl
  · exact (sectionPresence_amended ⟨true, true, true, true, 0, none, none⟩ [mkRow 0 1 0]
      none ⟨0, 0, 0, 0⟩ 0).2.2.1.mpr ⟨rfl, by decide⟩
  · exact (sectionPresence_amended ⟨true, true, true, true, 0, none, none⟩ []
      none ⟨0, 0, 0, 0⟩ 0).2.1.mpr rfl

/-! ## Goals store theorems (C10) -/

theorem zip_getElem_eq {α β : Type} (l1 : List α) (l2 : List β) (i : Nat) :
    (l1.zip l2)[i]? = (l1[i]?).bind fun a => (l2[i]?).map fun b => (a, b) := by
  induction l1 generalizing l2 i with
  | nil => simp
  | cons a as ih =>
    cases l2 with
    | nil => simp
    | cons b bs =>
      cases i with
      | zero => simp
      | succ n => simp [ih]

theorem getElem?_of_indexOf? {l : List (List Char)} {a : List Char} {i : Nat}
    (h : l.indexOf? a = some i) : l[i]? = some a := by
  induction l generalizing i with
  | nil => simp at h
  | cons b bs ih =>
    rw [List.indexOf?_cons] at h
    by_cases hb : b == a
    · rw [if_pos hb] at h
      cases h
      simpa using (eq_of_beq hb)
    · rw [if_neg hb] at h
      cases hidx : bs.indexOf? a with
      | none =>
        rw [hidx] at h
        simp at h
      | some k =>
        rw [hidx] at h
        simp at h
        subst h
        simpa using ih hidx

theorem convertGoalRow_getElem {headers row : List (List Char)} {j : Nat}
    {hname c : List Char} (hh : headers[j]? = some hname) (hr : row[j]? = some c)
    (hnum : hname ∈ goalNumericCols) (hparse : pdToNumeric c = none) :
    (convertGoalRow headers row)[j]? = some (GoalCell.num 0) := by
  unfold convertGoalRow
  rw [List.getElem?_map, zip_getElem_eq, hh, hr]
  show some (if hname ∈ goalNumericCols then GoalCell.num (goalCellVal c)
    else GoalCell.strc c) = some (GoalCell.num 0)
  rw [if_pos hnum]
  simp [goalCellVal, hparse]

/-- C10: reading the goal log never fails and silently normalizes
malformed data: fewer than two sheet rows (a header plus at least one
entry are required) give the empty table; every cell under a numeric
goal column whose text fails numeric parsing is converted to the
integer 0; and when all four numeric cells of the current (last) entry
fail to parse (or their columns are absent), the current goals read
back as all-zero — "no goal configured". -/
theorem getGoals_robust (data : List (List (List Char))) :
    (data.length < 2 → getGoals data = none) ∧
    (∀ headers rows, getGoals data = some (headers, rows) →
      rows = data.tail.map (convertGoalRow headers)) ∧
    (∀ headers row : List (List Char), ∀ j : Nat, ∀ hname c : List Char,
      headers[j]? = some hname → row[j]? = some c →
      hname ∈ goalNumericCols → pdToNumeric c = none →
      (convertGoalRow headers row)[j]? = some (GoalCell.num 0)) ∧
    (∀ headers rows lastRow, getGoals data = some (headers, rows) →
      data.tail.getLast? = some lastRow →
      (∀ col ∈ goalNumericCols, ∀ j : Nat, headers.indexOf? col = some j →
        ∀ c, lastRow[j]? = some c → pdToNumeric c = none) →
      currentGoals data = some ⟨0, 0, 0, 0⟩) := by
  refine ⟨?_, ?_, ?_, ?_⟩
  · intro hlen
    match data with
    | [] => rfl
    | [_] => rfl
    | a :: b :: t =>
      exfalso
      simp at hlen
      omega
  · intro headers rows hg
    match data with
    | [] => exact absurd hg (by simp [getGoals])
    | [_] => exact absurd hg (by simp [getGoals])
    | a :: b :: t =>
      rw [show getGoals (a :: b :: t)
          = some (a, (b :: t).map (convertGoalRow a)) from rfl] at hg
      have h2 := Option.some.inj hg
      injection h2 with ha hb
      subst ha
      subst hb
      rfl
  · intro headers row j hname c hh hr hnum hparse
    exact convertGoalRow_getElem hh hr hnum hparse
  · intro headers rows lastRow hg htail hfail
    have hrows : rows = data.tail.map (convertGoalRow headers) := by
      match data with
      | [] => exact absurd hg (by simp [getGoals])
      | [_] => exact absurd hg (by simp [getGoals])
      | a :: b :: t =>
        rw [show getGoals (a :: b :: t)
            = some (a, (b :: t).map (convertGoalRow a)) from rfl] at hg
        have h2 := Option.some.inj hg
        injection h2 with ha hb
        subst ha
        subst hb
        rfl
    have hfield : ∀ col ∈ goalNumericCols,
        goalField headers (convertGoalRow headers lastRow) col = 0 := by
      intro col hcol
      unfold goalField
      cases hidx : headers.indexOf? col with
      | none => rfl
      | some j =>
        show cellInt ((convertGoalRow headers lastRow)[j]?) = 0
        have hhj : headers[j]? = some col := getElem?_of_indexOf? hidx
        cases hc : lastRow[j]? with
        | none =>
          rw [show (convertGoalRow headers lastRow)[j]? = none from by
            unfold convertGoalRow
            rw [List.getElem?_map, zip_getElem_eq, hhj, hc]
            rfl]
          rfl
        | some c =>
          rw [convertGoalRow_getElem hhj hc hcol (hfail col hcol j hidx c hc)]
          rfl
    have hlast : rows.getLast? = some (convertGoalRow headers lastRow) := by
      rw [hrows, List.getLast?_map, htail]
      rfl
    have h1 := hfield (("新規動画24時間再生回数").data) (by decide)
    have h2 := hfield (("1日総再生回数").data) (by decide)
    have h3 := hfield (("月間収益").data) (by decide)
    have h4 := hfield (("1日収益").data) (by decide)
    simp only [currentGoals, hg, hlast, h1, h2, h3, h4]

/-- C10 witness: a corrupted store — the header row plus one entry
whose four numeric cells are unparsable — reads back as the all-zero
goal, and a store with only the header row reads as empty. -/
theorem getGoals_robust_witness :
    currentGoals [goalHdrRow, badGoalRow] = some ⟨0, 0, 0, 0⟩ ∧
    getGoals [goalHdrRow] = none := by
  constructor
  · refine (getGoals_robust [goalHdrRow, badGoalRow]).2.2.2 goalHdrRow
      [convertGoalRow goalHdrRow badGoalRow] badGoalRow rfl rfl ?_
    intro col hcol j hj c hc
    fin_cases hcol
    · rw [show goalHdrRow.indexOf? (("新規動画24時間再生回数").data) = some 1 from by decide] at hj
      cases hj
      rw [show badGoalRow[1]? = some (("abc").data) from by decide] at hc
      cases hc
      decide
    · rw [show goalHdrRow.indexOf? (("1日総再生回数").data) = some 2 from by decide] at hj
      cases hj
      rw [show badGoalRow[2]? = some (("").data) from by decide] at hc
      cases hc
      decide
    · rw [show goalHdrRow.indexOf? (("月間収益").data) = some 3 from by decide] at hj
      cases hj
      rw [show badGoalRow[3]? = some (("x1").data) from by decide] at hc
      cases hc
      decide
    · rw [show goalHdrRow.indexOf? (("1日収益").data) = some 4 from by decide] at hj
      cases hj
      rw [show badGoalRow[4]? = some (("--").data) from by decide] at hc
      cases hc
      decide
  · exact (getGoals_robust [goalHdrRow]).1 (by decide)

end ChannelDashboard
